import Mathlib

set_option maxHeartbeats 1000000

/-! Verification development for the sqlparser-rs fork: the SQL `DataType`
AST and its canonical rendering (from `src/ast/data_type.rs`), together with
a model of the dialect-aware tokenizer and statement parser described by the
specification, and proofs of the stated rendering / parsing properties.

Rendering is modelled as `Option String`: `none` marks a run-time abort
(a failed `unwrap` or a failed assertion) while `some s` is the canonical
text the `Display` implementation writes. -/

/-- Modelled from the spec: an identifier is a name plus an optional quoting
character, with equality by the (name, quote) pair. The `Ident` declaration
itself is outside the provided sources; only its use sites appear there. -/
structure Ident where
  value : String
  quote_style : Option Char
  deriving DecidableEq, Repr

/-- Modelled from the spec: a qualified name is an ordered sequence of
identifiers, dot-separated, whose order is semantically significant. -/
structure ObjectName where
  idents : List Ident
  deriving DecidableEq, Repr

/-- SQL data types, from `src/ast/data_type.rs` (`enum DataType`).
`Option u64` parameters become `Option Nat`; `Box`/`Vec` indirection is
erased into plain recursive occurrences and `List`. -/
inductive DataType where
  | Char (size : Option Nat)
  | Varchar (size : Option Nat)
  | Uuid
  | Clob (size : Nat)
  | Binary (size : Nat)
  | Varbinary (size : Nat)
  | Blob (size : Nat)
  | Decimal (precision : Option Nat) (scale : Option Nat)
  | Float (size : Option Nat)
  | TinyInt (zerofill : Option Nat)
  | UnsignedTinyInt (zerofill : Option Nat)
  | SmallInt (zerofill : Option Nat)
  | UnsignedSmallInt (zerofill : Option Nat)
  | Int (zerofill : Option Nat)
  | UnsignedInt (zerofill : Option Nat)
  | BigInt (zerofill : Option Nat)
  | UnsignedBigInt (zerofill : Option Nat)
  | Real
  | Double
  | Boolean
  | Date
  | Time
  | Timestamp (n : Option Nat)
  | DateTime (n : Option Nat)
  | Interval
  | Regclass
  | Text
  | String
  | Bytea
  | Custom (ty : ObjectName)
  | Array (ty : DataType)
  | Struct (names : List Ident) (types : List DataType)

/-- Abbreviation for `String`, needed inside the `DataType` namespace where
the bare name `String` would resolve to the `DataType.String` constructor. -/
abbrev Str := String

/-- The backquote character, MySQL's identifier quote. -/
def backquote : Char := Char.ofNat 96

/-- The single-quote character, the SQL string-literal quote. -/
def singleQuote : Char := Char.ofNat 39

/-- Modelled from the spec: rendering an identifier reproduces its quoting
exactly — an unquoted name prints bare, a quoted one prints between its
quote character and the matching closing character (`[` closes with `]`).
The `Display` impl for `Ident` is outside the provided sources. -/
def Ident.render (i : Ident) : String :=
  match i.quote_style with
  | none => i.value
  | some q => String.singleton q ++ i.value ++ String.singleton (if q = '[' then ']' else q)

/-- Modelled from the spec: a qualified name renders dot-separated. -/
def ObjectName.render (n : ObjectName) : String :=
  String.intercalate "." (n.idents.map Ident.render)

/-- The helper `format_type_with_optional_length` from `src/ast/data_type.rs`: writes the
type name, then `(len)` when the length is present, then ` UNSIGNED` when the
unsigned flag is set. It cannot fail. -/
def format_type_with_optional_length (sql_type : String) (len : Option Nat)
    (unsigned : Bool) : String :=
  sql_type
    ++ (match len with
        | some l => "(" ++ toString l ++ ")"
        | none => "")
    ++ (if unsigned then " UNSIGNED" else "")

mutual

/-- The `Display` implementation for `DataType` from `src/ast/data_type.rs`.
`none` models a panic: the `Decimal` arm calls `precision.unwrap()` when a
scale is present, and the `Struct` arm asserts equal field-list lengths. -/
def DataType.fmt : DataType → Option Str
  | .Char size => some (format_type_with_optional_length "CHAR" size false)
  | .Varchar size => some (format_type_with_optional_length "CHARACTER VARYING" size false)
  | .Uuid => some "UUID"
  | .Clob size => some ("CLOB(" ++ toString size ++ ")")
  | .Binary size => some ("BINARY(" ++ toString size ++ ")")
  | .Varbinary size => some ("VARBINARY(" ++ toString size ++ ")")
  | .Blob size => some ("BLOB(" ++ toString size ++ ")")
  | .Decimal precision scale =>
      match scale with
      | some s =>
          match precision with
          | some p => some ("NUMERIC(" ++ toString p ++ "," ++ toString s ++ ")")
          | none => none
      | none => some (format_type_with_optional_length "NUMERIC" precision false)
  | .Float size => some (format_type_with_optional_length "FLOAT" size false)
  | .TinyInt zerofill => some (format_type_with_optional_length "TINYINT" zerofill false)
  | .UnsignedTinyInt zerofill => some (format_type_with_optional_length "TINYINT" zerofill true)
  | .SmallInt zerofill => some (format_type_with_optional_length "SMALLINT" zerofill false)
  | .UnsignedSmallInt zerofill => some (format_type_with_optional_length "SMALLINT" zerofill true)
  | .Int zerofill => some (format_type_with_optional_length "INT" zerofill false)
  | .UnsignedInt zerofill => some (format_type_with_optional_length "INT" zerofill true)
  | .BigInt zerofill => some (format_type_with_optional_length "BIGINT" zerofill false)
  | .UnsignedBigInt zerofill => some (format_type_with_optional_length "BIGINT" zerofill true)
  | .Real => some "REAL"
  | .Double => some "DOUBLE"
  | .Boolean => some "BOOLEAN"
  | .Date => some "DATE"
  | .Time => some "TIME"
  | .Timestamp n => some (format_type_with_optional_length "TIMESTAMP" n false)
  | .DateTime n => some (format_type_with_optional_length "DATETIME" n false)
  | .Interval => some "INTERVAL"
  | .Regclass => some "REGCLASS"
  | .Text => some "TEXT"
  | .String => some "STRING"
  | .Bytea => some "BYTEA"
  | .Custom ty => some (ObjectName.render ty)
  | .Array ty => (DataType.fmt ty).map (fun s => "ARRAY(" ++ s ++ ")")
  | .Struct names types => format_struct names types
termination_by d => sizeOf d
decreasing_by
  all_goals simp_wf
  all_goals
    have hpos : 0 < sizeOf names := by cases names <;> simp_arith
  all_goals omega

/-- The helper `format_struct` from `src/ast/data_type.rs`: asserts that the field-name
and field-type lists have equal length (`none` models the assertion failure),
then writes `STRUCT(name ty, ...)` over the zipped pairs. -/
def format_struct (names : List Ident) (types : List DataType) : Option String :=
  if names.length = types.length then
    (format_struct_fields names types).map
      (fun fields => "STRUCT(" ++ String.intercalate ", " fields ++ ")")
  else none
termination_by sizeOf types + 1

/-- The field loop of `format_struct`: renders `name ty` for each zipped pair,
propagating a nested rendering failure. -/
def format_struct_fields : List Ident → List DataType → Option (List String)
  | name :: names, ty :: types =>
      match DataType.fmt ty, format_struct_fields names types with
      | some s, some rest => some ((Ident.render name ++ " " ++ s) :: rest)
      | _, _ => none
  | _, _ => some []
termination_by _ types => sizeOf types

end

mutual

/-- Rendering fails (panics) exactly on the values marked by this predicate: a
`Decimal` with absent precision but present scale, or a `Struct` whose field
lists have unequal lengths, anywhere in the value. -/
def hasFailure : DataType → Bool
  | .Decimal precision scale =>
      match scale with
      | some _ => precision.isNone
      | none => false
  | .Array ty => hasFailure ty
  | .Struct names types => (names.length != types.length) || anyFailure types
  | _ => false
termination_by d => sizeOf d

/-- Whether some element of a list of data types contains a failure point. -/
def anyFailure : List DataType → Bool
  | [] => false
  | t :: ts => hasFailure t || anyFailure ts
termination_by ts => sizeOf ts

end

theorem anyFailure_eq_any (ts : List DataType) : anyFailure ts = ts.any hasFailure := by
  induction ts with
  | nil => simp [anyFailure]
  | cons t ts ih => simp [anyFailure, ih]

theorem zip_any_snd (names : List Ident) (types : List DataType)
    (h : names.length = types.length) :
    ((names.zip types).any fun p => hasFailure p.2) = types.any hasFailure := by
  induction names generalizing types with
  | nil =>
      cases types with
      | nil => simp
      | cons t ts => simp at h
  | cons n ns ih =>
      cases types with
      | nil => simp at h
      | cons t ts =>
          simp only [List.length_cons, Nat.add_right_cancel_iff] at h
          simp [List.zip_cons_cons, List.any_cons, ih ts h]

mutual

theorem fmt_eq_none_iff (d : DataType) : DataType.fmt d = none ↔ hasFailure d = true := by
  cases d with
  | Decimal precision scale =>
      cases scale <;> cases precision <;> simp [DataType.fmt, hasFailure]
  | Array ty =>
      have ih := fmt_eq_none_iff ty
      simp [DataType.fmt, hasFailure, Option.map_eq_none, ih]
  | Struct names types =>
      have ih := fields_eq_none_iff names types
      by_cases h : names.length = types.length
      · simp [DataType.fmt, format_struct, h, hasFailure, anyFailure_eq_any,
          Option.map_eq_none, ih, zip_any_snd names types h]
      · simp [DataType.fmt, format_struct, h, hasFailure]
  | _ => simp [DataType.fmt, hasFailure]
termination_by sizeOf d

theorem fields_eq_none_iff (names : List Ident) (types : List DataType) :
    format_struct_fields names types = none ↔
      ((names.zip types).any fun p => hasFailure p.2) = true := by
  cases names with
  | nil => simp [format_struct_fields]
  | cons n ns =>
      cases types with
      | nil => simp [format_struct_fields]
      | cons t ts =>
          have h1 := fmt_eq_none_iff t
          have h2 := fields_eq_none_iff ns ts
          simp only [format_struct_fields, List.zip_cons_cons, List.any_cons,
            Bool.or_eq_true]
          cases hf : DataType.fmt t <;> cases hr : format_struct_fields ns ts <;>
            simp_all
          assumption
termination_by sizeOf types

end

/-- Renders a list of (field-name, field-type) pairs as `name ty`, in order,
propagating a rendering failure of any field type. -/
def renderPairs : List (Ident × DataType) → Option (List String)
  | [] => some []
  | p :: rest =>
      match DataType.fmt p.2, renderPairs rest with
      | some s, some ss => some ((Ident.render p.1 ++ " " ++ s) :: ss)
      | _, _ => none

/-- The field loop of `format_struct` renders exactly the zipped (name, type)
pairs, pairwise and in order. -/
theorem format_struct_fields_eq_renderPairs (names : List Ident)
    (types : List DataType) :
    format_struct_fields names types = renderPairs (names.zip types) := by
  induction names generalizing types with
  | nil => cases types <;> simp [format_struct_fields, renderPairs]
  | cons n ns ih =>
      cases types with
      | nil => simp [format_struct_fields, renderPairs]
      | cons t ts =>
          simp only [format_struct_fields, List.zip_cons_cons, renderPairs, ih]
          rfl

/-- C1: the canonical rendering equations hold: `Decimal(Some(10), Some(2))`
renders as `NUMERIC(10,2)`, `Decimal(Some(10), None)` as `NUMERIC(10)`, and
`UnsignedTinyInt(Some(3))` as `TINYINT(3) UNSIGNED`; generally, for every
`p`, `s`, `w`, `Decimal(Some(p), Some(s))` renders as `NUMERIC(p,s)`,
`Decimal(Some(p), None)` as `NUMERIC(p)`, and `UnsignedTinyInt(Some(w))` as
`TINYINT(w) UNSIGNED`. -/
theorem C1_canonical_type_rendering :
    DataType.fmt (.Decimal (some 10) (some 2)) = some "NUMERIC(10,2)" ∧
    DataType.fmt (.Decimal (some 10) none) = some "NUMERIC(10)" ∧
    DataType.fmt (.UnsignedTinyInt (some 3)) = some "TINYINT(3) UNSIGNED" ∧
    ∀ p s w : Nat,
      DataType.fmt (.Decimal (some p) (some s)) =
        some ("NUMERIC(" ++ toString p ++ "," ++ toString s ++ ")") ∧
      DataType.fmt (.Decimal (some p) none) =
        some ("NUMERIC(" ++ toString p ++ ")") ∧
      DataType.fmt (.UnsignedTinyInt (some w)) =
        some ("TINYINT(" ++ toString w ++ ") UNSIGNED") := by
  refine ⟨by simp [DataType.fmt]; decide,
          by simp [DataType.fmt, format_type_with_optional_length]; decide,
          by simp [DataType.fmt, format_type_with_optional_length]; decide,
          fun p s w => ⟨?_, ?_, ?_⟩⟩
  · simp [DataType.fmt]
  · simp [DataType.fmt, format_type_with_optional_length]
    apply String.ext
    simp [String.data_append]
  · simp [DataType.fmt, format_type_with_optional_length]
    apply String.ext
    simp [String.data_append]

/-- C3: for every optional length, `Varchar(None)` renders as
`CHARACTER VARYING` and `Varchar(Some(n))` as `CHARACTER VARYING(n)` — the
canonical spelling is always `CHARACTER VARYING`, never `VARCHAR`. -/
theorem C3_varchar_renders_character_varying :
    DataType.fmt (.Varchar none) = some "CHARACTER VARYING" ∧
    ∀ n : Nat,
      DataType.fmt (.Varchar (some n)) =
        some ("CHARACTER VARYING(" ++ toString n ++ ")") := by
  refine ⟨by simp [DataType.fmt, format_type_with_optional_length], fun n => ?_⟩
  simp [DataType.fmt, format_type_with_optional_length]
  apply String.ext
  simp [String.data_append]

/-- C2: rendering a struct whose field-name and field-type lists have unequal
lengths aborts (the assertion in `format_struct` fails, modelled as `none`);
under the precondition of equal lengths, the fields are rendered pairwise in
order, each zipped (name, type) pair as `name ty`, comma-separated inside
`STRUCT(...)`. -/
theorem C2_struct_mismatch_aborts (names : List Ident) (types : List DataType) :
    (names.length ≠ types.length → DataType.fmt (.Struct names types) = none) ∧
    (names.length = types.length →
      DataType.fmt (.Struct names types) =
        (renderPairs (names.zip types)).map
          (fun fields => "STRUCT(" ++ String.intercalate ", " fields ++ ")")) := by
  constructor
  · intro h
    simp [DataType.fmt, format_struct, h]
  · intro h
    simp [DataType.fmt, format_struct, h, format_struct_fields_eq_renderPairs]

/-- Witness for C2 at concrete inputs: one name and zero types aborts, and a
matched one-field struct renders pairwise. -/
theorem C2_struct_mismatch_aborts_witness :
    DataType.fmt (.Struct [⟨"a", none⟩] []) = none ∧
    DataType.fmt (.Struct [⟨"a", none⟩] [.Int none]) = some "STRUCT(a INT)" := by
  constructor
  · exact (C2_struct_mismatch_aborts [⟨"a", none⟩] []).1 (by decide)
  · rw [(C2_struct_mismatch_aborts [⟨"a", none⟩] [.Int none]).2 (by decide)]
    simp [renderPairs, DataType.fmt, format_type_with_optional_length, Ident.render]
    decide

/-- Decides whether a value is, at top level, a `Decimal` with absent
precision and present scale — the only shape the original claim allows to
fail. -/
def isDecimalMissingPrecision : DataType → Bool
  | .Decimal none (some _) => true
  | _ => false

/-- Counterexample to C10 as stated: `Array(Decimal(None, Some(2)))` is not of
the form `Decimal(None, Some(s))`, yet rendering it also fails (the nested
decimal has its absent precision unwrapped), so it is not true that every
other value renders to a defined string. -/
theorem C10_counterexample :
    isDecimalMissingPrecision (.Array (.Decimal none (some 2))) = false ∧
    DataType.fmt (.Array (.Decimal none (some 2))) = none := by
  refine ⟨rfl, ?_⟩
  simp [DataType.fmt]

/-- C10 (amended): rendering `Decimal(None, Some(s))` fails for every `s`,
`Decimal(None, None)` renders as `NUMERIC`, and in general rendering fails
exactly on values containing a `Decimal` with absent precision but present
scale or a `Struct` with mismatched field lists (`hasFailure`); every value
free of such subterms renders to a defined string. -/
theorem C10_decimal_render_partiality :
    (∀ s : Nat, DataType.fmt (.Decimal none (some s)) = none) ∧
    DataType.fmt (.Decimal none none) = some "NUMERIC" ∧
    ∀ d : DataType, DataType.fmt d = none ↔ hasFailure d = true := by
  refine ⟨fun s => by simp [DataType.fmt],
          by simp [DataType.fmt, format_type_with_optional_length],
          fmt_eq_none_iff⟩

/-! ### The tokenizer, dialects and the statement parser

The lexical and syntactic engine itself is not among the provided sources
(only its tests are), so the definitions below are modelled from the
specification, restricted to the statement forms the verified properties
exercise. -/

/-- Modelled from the spec: the dialect capability seam, with the Generic
baseline and the MySQL-like vendor dialect. The parser consults it only at
fixed extension points (here: the legal identifier-quote characters). -/
inductive Dialect where
  | mysql
  | generic
  deriving DecidableEq, Repr

/-- Modelled from the spec: the token model — keywords and identifiers are
words with an optional quote character, plus numeric literals, string
literals and punctuation. The `Token` declaration itself is outside the
provided sources; the tests build words via `Token::make_keyword` and
`Token::make_word`. -/
inductive Token where
  | Word (value : String) (quote : Option Char)
  | Number (value : String)
  | SingleQuotedString (value : String)
  | LParen
  | RParen
  | Comma
  | Period
  | Eq
  | SemiColon
  deriving DecidableEq, Repr

/-- The constructor shorthand `Token::make_keyword` used by the tests: an unquoted word. -/
def Token.make_keyword (s : String) : Token := .Word s none

/-- The constructor shorthand `Token::make_word` used by the tests: a word with a quote style. -/
def Token.make_word (s : String) (q : Option Char) : Token := .Word s q

/-- Modelled from the spec: literal values (number with the long flag,
single-quoted string, boolean). -/
inductive Value where
  | Number (value : String) (long : Bool)
  | SingleQuotedString (value : String)
  | Boolean (b : Bool)
  deriving DecidableEq, Repr

/-- Modelled from the spec: the expression variants the verified properties
exercise — identifiers, literal values and the normalized `Substring` node
with its optional FROM and FOR parts. -/
inductive Expr where
  | Identifier (ident : Ident)
  | Value (value : Value)
  | Substring (expr : Expr) (substring_from : Option Expr) (substring_for : Option Expr)

/-- Modelled from the spec: the filter of SHOW COLUMNS. -/
inductive ShowStatementFilter where
  | Like (pattern : String)
  | Where (expr : Expr)

/-- Modelled from the spec: column options — the structured variants plus the
dialect-specific escape hatch holding a verbatim token list. -/
inductive ColumnOption where
  | Null
  | NotNull
  | Unique (is_primary : Bool)
  | DialectSpecific (tokens : List Token)

/-- Modelled from the spec: an (optional option-name, option) pair. -/
structure ColumnOptionDef where
  name : Option Ident
  option : ColumnOption

/-- Modelled from the spec: a column definition — name, data type, optional
collation and the ordered option list. -/
structure ColumnDef where
  name : Ident
  data_type : DataType
  collation : Option ObjectName
  options : List ColumnOptionDef

/-- Modelled from the spec: the nested ALTER TABLE operation variant. -/
inductive AlterTableOperation where
  | ChangeColumn (old_name : Ident) (new_name : Ident) (data_type : DataType)
      (options : List ColumnOption)

/-- Modelled from the spec: the statement variants the verified properties
exercise. -/
inductive Statement where
  | ShowColumns (extended : Bool) (full : Bool) (table_name : ObjectName)
      (filter : Option ShowStatementFilter)
  | AlterTable (name : ObjectName) (operation : AlterTableOperation)
  | CreateTable (name : ObjectName) (columns : List ColumnDef)

/-- Word characters that may start an unquoted identifier or keyword. -/
def isIdentStart (c : Char) : Bool := c.isAlpha || c = '_'

/-- Word characters that may continue an unquoted identifier or keyword. -/
def isIdentPart (c : Char) : Bool := c.isAlphanum || c = '_'

/-- The identifier-quote characters each dialect accepts: backticks for the
MySQL dialect, double quotes for the Generic dialect. -/
def Dialect.identQuotes : Dialect → List Char
  | .mysql => [backquote]
  | .generic => ['"']

/-- Reads the longest prefix of characters satisfying `p`, returning it and
the rest. -/
def readWhile (p : Char → Bool) : List Char → List Char × List Char
  | [] => ([], [])
  | c :: cs =>
      if p c then
        let (w, r) := readWhile p cs
        (c :: w, r)
      else ([], c :: cs)

/-- Reads characters up to (and consuming) the closing quote `q`; `none`
models an unterminated construct. -/
def readQuoted (q : Char) : List Char → Option (List Char × List Char)
  | [] => none
  | c :: cs =>
      if c = q then some ([], cs)
      else
        match readQuoted q cs with
        | some (w, r) => some (c :: w, r)
        | none => none

/-- Modelled from the spec: the tokenizer core — skips whitespace, reads
unquoted words, numeric literals, dialect-quoted identifiers, single-quoted
strings and punctuation, and fails with a lexical error on an unterminated
construct or an unrecognized character. Fuel bounds the recursion; every
step consumes at least one character, so `length + 1` fuel always suffices. -/
def tokenizeCore (d : Dialect) : Nat → List Char → Except String (List Token)
  | _, [] => .ok []
  | 0, _ :: _ => .error "tokenizer: out of fuel"
  | fuel + 1, c :: cs =>
      if c = ' ' then tokenizeCore d fuel cs
      else if isIdentStart c then
        let (w, r) := readWhile isIdentPart cs
        (tokenizeCore d fuel r).map (fun ts => Token.Word (String.mk (c :: w)) none :: ts)
      else if c.isDigit then
        let (w, r) := readWhile Char.isDigit cs
        (tokenizeCore d fuel r).map (fun ts => Token.Number (String.mk (c :: w)) :: ts)
      else if (d.identQuotes).contains c then
        match readQuoted c cs with
        | some (w, r) =>
            (tokenizeCore d fuel r).map (fun ts => Token.Word (String.mk w) (some c) :: ts)
        | none => .error "tokenizer: unterminated quoted identifier"
      else if c = singleQuote then
        match readQuoted singleQuote cs with
        | some (w, r) =>
            (tokenizeCore d fuel r).map (fun ts => Token.SingleQuotedString (String.mk w) :: ts)
        | none => .error "tokenizer: unterminated string literal"
      else if c = '(' then (tokenizeCore d fuel cs).map (fun ts => Token.LParen :: ts)
      else if c = ')' then (tokenizeCore d fuel cs).map (fun ts => Token.RParen :: ts)
      else if c = ',' then (tokenizeCore d fuel cs).map (fun ts => Token.Comma :: ts)
      else if c = '.' then (tokenizeCore d fuel cs).map (fun ts => Token.Period :: ts)
      else if c = '=' then (tokenizeCore d fuel cs).map (fun ts => Token.Eq :: ts)
      else if c = ';' then (tokenizeCore d fuel cs).map (fun ts => Token.SemiColon :: ts)
      else .error "tokenizer: unrecognized character"

/-- Modelled from the spec: `tokenize(source_text, dialect)` — the token
sequence of the source string, or a lexical error. -/
def tokenize (d : Dialect) (s : String) : Except String (List Token) :=
  tokenizeCore d (s.data.length + 1) s.data

example : tokenize .mysql "SHOW COLUMNS FROM t" =
    .ok [.Word "SHOW" none, .Word "COLUMNS" none, .Word "FROM" none, .Word "t" none] := by
  rfl

/-- Parses one identifier token. -/
def parseIdent : List Token → Except String (Ident × List Token)
  | Token.Word v q :: ts => .ok (⟨v, q⟩, ts)
  | _ => .error "expected identifier"

/-- Parses the dot-separated continuation of a qualified name. -/
def parseObjectNameRest (acc : List Ident) : List Token → List Ident × List Token
  | Token.Period :: Token.Word v q :: ts => parseObjectNameRest (acc ++ [⟨v, q⟩]) ts
  | ts => (acc, ts)

/-- Modelled from the spec: parses a qualified name — an ordered, non-empty,
dot-separated sequence of identifiers. -/
def parseObjectName : List Token → Except String (ObjectName × List Token)
  | Token.Word v q :: ts =>
      let (ids, r) := parseObjectNameRest [⟨v, q⟩] ts
      .ok (⟨ids⟩, r)
  | _ => .error "expected object name"

/-- Modelled from the spec: the expression parser fragment the verified
properties exercise — identifiers, literals, and the two surface syntaxes of
`SUBSTRING` (`SUBSTRING(e, f, l)` and `SUBSTRING(e FROM f FOR l)`), both
normalized to the single `Substring` node. Fuel bounds the recursion. -/
def parseExpr (d : Dialect) : Nat → List Token → Except String (Expr × List Token)
  | 0, _ => .error "parser: out of fuel"
  | _ + 1, [] => .error "expected an expression"
  | fuel + 1, t :: ts =>
      if t = Token.Word "SUBSTRING" none then
        match ts with
        | Token.LParen :: ts1 =>
            match parseExpr d fuel ts1 with
            | .error e => .error e
            | .ok (e, ts2) =>
                match
                  (match ts2 with
                   | Token.Word "FROM" none :: r =>
                       (parseExpr d fuel r).map (fun p => (some p.1, p.2))
                   | Token.Comma :: r =>
                       (parseExpr d fuel r).map (fun p => (some p.1, p.2))
                   | r => .ok (none, r) : Except String (Option Expr × List Token))
                with
                | .error er => .error er
                | .ok (sf, ts3) =>
                    match
                      (match ts3 with
                       | Token.Word "FOR" none :: r =>
                           (parseExpr d fuel r).map (fun p => (some p.1, p.2))
                       | Token.Comma :: r =>
                           (parseExpr d fuel r).map (fun p => (some p.1, p.2))
                       | r => .ok (none, r) : Except String (Option Expr × List Token))
                    with
                    | .error er => .error er
                    | .ok (sl, ts4) =>
                        match ts4 with
                        | Token.RParen :: ts5 => .ok (.Substring e sf sl, ts5)
                        | _ => .error "expected right parenthesis in SUBSTRING"
        | _ => .error "expected left parenthesis after SUBSTRING"
      else
        match t with
        | Token.Word v q => .ok (.Identifier ⟨v, q⟩, ts)
        | Token.Number n => .ok (.Value (.Number n false), ts)
        | Token.SingleQuotedString s => .ok (.Value (.SingleQuotedString s), ts)
        | _ => .error "expected an expression"

/-- Modelled from the spec: the data-type parser fragment the verified
properties exercise (`INT` with optional display width and UNSIGNED marker,
and `TEXT`). -/
def parseDataType : List Token → Except String (DataType × List Token)
  | Token.Word "INT" none :: ts =>
      (match ts with
       | Token.LParen :: Token.Number n :: Token.RParen :: r =>
           (match r with
            | Token.Word "UNSIGNED" none :: r2 =>
                .ok (.UnsignedInt (some (n.toNat?.getD 0)), r2)
            | _ => .ok (.Int (some (n.toNat?.getD 0)), r))
       | Token.Word "UNSIGNED" none :: r => .ok (.UnsignedInt none, r)
       | _ => .ok (.Int none, ts))
  | Token.Word "TEXT" none :: ts => .ok (.Text, ts)
  | _ => .error "expected data type"

/-- Parses the plain column-option list of ALTER TABLE ... CHANGE
(`NOT NULL`, `NULL`). -/
def parseColumnOptions : List Token → List ColumnOption × List Token
  | Token.Word "NOT" none :: Token.Word "NULL" none :: ts =>
      let (os, r) := parseColumnOptions ts
      (ColumnOption.NotNull :: os, r)
  | Token.Word "NULL" none :: ts =>
      let (os, r) := parseColumnOptions ts
      (ColumnOption.Null :: os, r)
  | ts => ([], ts)

/-- Captures the tokens up to the next comma or closing parenthesis, for the
dialect-specific escape hatch. -/
def captureTokens : List Token → List Token × List Token
  | [] => ([], [])
  | t :: ts =>
      if t = Token.Comma ∨ t = Token.RParen then ([], t :: ts)
      else
        let (cap, r) := captureTokens ts
        (t :: cap, r)

/-- Modelled from the spec: the column-option loop of CREATE TABLE — the
structured options (`PRIMARY KEY`, `NOT NULL`, `NULL`, `UNIQUE`) and, for any
trailing syntax not covered by a structured option, verbatim capture of the
tokens up to the next comma or closing parenthesis as `DialectSpecific`. -/
def parseColumnOptionDefs : Nat → List Token → List ColumnOptionDef × List Token
  | 0, ts => ([], ts)
  | fuel + 1, ts =>
      match ts with
      | Token.Word "PRIMARY" none :: Token.Word "KEY" none :: r =>
          let (os, r2) := parseColumnOptionDefs fuel r
          (⟨none, .Unique true⟩ :: os, r2)
      | Token.Word "NOT" none :: Token.Word "NULL" none :: r =>
          let (os, r2) := parseColumnOptionDefs fuel r
          (⟨none, .NotNull⟩ :: os, r2)
      | Token.Word "NULL" none :: r =>
          let (os, r2) := parseColumnOptionDefs fuel r
          (⟨none, .Null⟩ :: os, r2)
      | Token.Word "UNIQUE" none :: r =>
          let (os, r2) := parseColumnOptionDefs fuel r
          (⟨none, .Unique false⟩ :: os, r2)
      | [] => ([], [])
      | Token.Comma :: _ => ([], ts)
      | Token.RParen :: _ => ([], ts)
      | _ =>
          let (cap, r) := captureTokens ts
          let (os, r2) := parseColumnOptionDefs fuel r
          (⟨none, .DialectSpecific cap⟩ :: os, r2)

/-- Parses one column definition: name, data type, options. -/
def parseColumnDef (fuel : Nat) (ts : List Token) :
    Except String (ColumnDef × List Token) :=
  match parseIdent ts with
  | .error e => .error e
  | .ok (name, r) =>
      match parseDataType r with
      | .error e => .error e
      | .ok (dt, r1) =>
          let (opts, r2) := parseColumnOptionDefs fuel r1
          .ok (⟨name, dt, none, opts⟩, r2)

/-- Parses a comma-separated column-definition list. -/
def parseColumnDefs : Nat → List Token → Except String (List ColumnDef × List Token)
  | 0, _ => .error "parser: out of fuel"
  | fuel + 1, ts =>
      match parseColumnDef fuel ts with
      | .error e => .error e
      | .ok (c, r) =>
          match r with
          | Token.Comma :: r2 => (parseColumnDefs fuel r2).map (fun p => (c :: p.1, p.2))
          | _ => .ok ([c], r)

/-- Modelled from the spec: CREATE TABLE name (columns). -/
def parseCreateTable (fuel : Nat) (ts : List Token) :
    Except String (Statement × List Token) :=
  match parseObjectName ts with
  | .error e => .error e
  | .ok (name, r) =>
      match r with
      | Token.LParen :: r1 =>
          match parseColumnDefs fuel r1 with
          | .error e => .error e
          | .ok (cols, r2) =>
              match r2 with
              | Token.RParen :: r3 => .ok (.CreateTable name cols, r3)
              | _ => .error "expected right parenthesis after column list"
      | _ => .error "expected column list"

/-- Modelled from the spec: ALTER TABLE name CHANGE [COLUMN] old new type
[options] — the COLUMN keyword is optional and skipping it leaves the rest of
the grammar unchanged. -/
def parseAlterTable (ts : List Token) : Except String (Statement × List Token) :=
  match parseObjectName ts with
  | .error e => .error e
  | .ok (name, r) =>
      match r with
      | Token.Word "CHANGE" none :: r1 =>
          let r2 := match r1 with
                    | Token.Word "COLUMN" none :: rr => rr
                    | _ => r1
          match parseIdent r2 with
          | .error e => .error e
          | .ok (old_name, r3) =>
              match parseIdent r3 with
              | .error e => .error e
              | .ok (new_name, r4) =>
                  match parseDataType r4 with
                  | .error e => .error e
                  | .ok (dt, r5) =>
                      let (opts, r6) := parseColumnOptions r5
                      .ok (.AlterTable name (.ChangeColumn old_name new_name dt opts), r6)
      | _ => .error "expected ALTER TABLE operation"

/-- Modelled from the spec: SHOW COLUMNS/FIELDS [EXTENDED|FULL] FROM|IN name
[LIKE pattern | WHERE predicate] — FIELDS is a pure keyword synonym for
COLUMNS and IN for FROM; both collapse to the one `ShowColumns` node. -/
def parseShow (d : Dialect) (fuel : Nat) (ts : List Token) :
    Except String (Statement × List Token) :=
  let (extended, ts1) :=
    match ts with
    | Token.Word "EXTENDED" none :: r => (true, r)
    | _ => (false, ts)
  let (full, ts2) :=
    match ts1 with
    | Token.Word "FULL" none :: r => (true, r)
    | _ => (false, ts1)
  match ts2 with
  | Token.Word w none :: r =>
      if w = "COLUMNS" ∨ w = "FIELDS" then
        match r with
        | Token.Word f none :: r1 =>
            if f = "FROM" ∨ f = "IN" then
              match parseObjectName r1 with
              | .error e => .error e
              | .ok (name, r2) =>
                  match r2 with
                  | Token.Word "LIKE" none :: Token.SingleQuotedString p :: r3 =>
                      .ok (.ShowColumns extended full name (some (.Like p)), r3)
                  | Token.Word "WHERE" none :: r3 =>
                      (parseExpr d fuel r3).map
                        (fun p => (.ShowColumns extended full name (some (.Where p.1)), p.2))
                  | _ => .ok (.ShowColumns extended full name none, r2)
            else .error "expected FROM or IN after SHOW COLUMNS"
        | _ => .error "expected FROM or IN after SHOW COLUMNS"
      else .error "unsupported SHOW statement"
  | _ => .error "unsupported SHOW statement"

/-- Modelled from the spec: statement dispatch on the leading keywords. -/
def parseStatement (d : Dialect) (fuel : Nat) (ts : List Token) :
    Except String (Statement × List Token) :=
  match ts with
  | Token.Word "SHOW" none :: r => parseShow d fuel r
  | Token.Word "ALTER" none :: Token.Word "TABLE" none :: r => parseAlterTable r
  | Token.Word "CREATE" none :: Token.Word "TABLE" none :: r => parseCreateTable fuel r
  | _ => .error "unsupported statement"

/-- Modelled from the spec: parse statements until end of input, consuming
the separator between them; leftover tokens after a statement are a syntax
error, never silently ignored. -/
def parseStatements (d : Dialect) : Nat → List Token → Except String (List Statement)
  | _, [] => .ok []
  | 0, _ :: _ => .error "parser: out of fuel"
  | fuel + 1, ts =>
      match parseStatement d fuel ts with
      | .error e => .error e
      | .ok (st, rest) =>
          match rest with
          | [] => .ok [st]
          | Token.SemiColon :: more => (parseStatements d fuel more).map (fun l => st :: l)
          | _ => .error "expected end of statement"

/-- Modelled from the spec: `parse(source_text, dialect)` — tokenize, then
parse the statement sequence. -/
def parse (d : Dialect) (s : String) : Except String (List Statement) :=
  match tokenize d s with
  | .error e => .error e
  | .ok ts => parseStatements d (ts.length + 1) ts

/-- Requires the expression-parse result to have consumed all tokens. -/
def requireEnd : Expr × List Token → Except String Expr
  | (e, []) => .ok e
  | _ => .error "expected end of expression"

/-- Parses a single full expression from a source string. -/
def parseExprFromString (d : Dialect) (s : String) : Except String Expr :=
  (tokenize d s).bind (fun ts => (parseExpr d (ts.length + 1) ts).bind requireEnd)

/-- Modelled from the spec: canonical rendering of a literal value. -/
def Value.render : Value → String
  | .Number n _ => n
  | .SingleQuotedString s => singleQuote.toString ++ s ++ singleQuote.toString
  | .Boolean b => if b then "true" else "false"

/-- Modelled from the spec: canonical rendering of an expression; the
`Substring` node always renders in the `FROM ... FOR ...` keyword form. -/
def Expr.render : Expr → String
  | .Identifier i => i.render
  | .Value v => v.render
  | .Substring e none none => "SUBSTRING(" ++ Expr.render e ++ ")"
  | .Substring e (some f) none =>
      "SUBSTRING(" ++ Expr.render e ++ " FROM " ++ Expr.render f ++ ")"
  | .Substring e none (some l) =>
      "SUBSTRING(" ++ Expr.render e ++ " FOR " ++ Expr.render l ++ ")"
  | .Substring e (some f) (some l) =>
      "SUBSTRING(" ++ Expr.render e ++ " FROM " ++ Expr.render f
        ++ " FOR " ++ Expr.render l ++ ")"

/-- Canonical rendering of a SHOW COLUMNS filter. -/
def ShowStatementFilter.render : ShowStatementFilter → String
  | .Like p => "LIKE " ++ singleQuote.toString ++ p ++ singleQuote.toString
  | .Where e => "WHERE " ++ e.render

/-- Canonical rendering of a token, used for the verbatim dialect-specific
token lists. -/
def Token.render : Token → String
  | .Word v q => Ident.render ⟨v, q⟩
  | .Number n => n
  | .SingleQuotedString s => singleQuote.toString ++ s ++ singleQuote.toString
  | .LParen => "("
  | .RParen => ")"
  | .Comma => ","
  | .Period => "."
  | .Eq => "="
  | .SemiColon => ";"

/-- Canonical rendering of a column option. -/
def ColumnOption.render : ColumnOption → String
  | .Null => "NULL"
  | .NotNull => "NOT NULL"
  | .Unique is_primary => if is_primary then "PRIMARY KEY" else "UNIQUE"
  | .DialectSpecific toks => String.intercalate " " (toks.map Token.render)

/-- Canonical rendering of an (optional name, option) pair. -/
def ColumnOptionDef.render (o : ColumnOptionDef) : String :=
  match o.name with
  | none => ColumnOption.render o.option
  | some n => "CONSTRAINT " ++ n.render ++ " " ++ ColumnOption.render o.option

/-- Canonical rendering of a column definition; fails when the data type
fails to render. -/
def ColumnDef.render (c : ColumnDef) : Option String :=
  (DataType.fmt c.data_type).map (fun ty =>
    c.name.render ++ " " ++ ty
      ++ (match c.collation with
          | some col => " COLLATE " ++ col.render
          | none => "")
      ++ String.join (c.options.map (fun o => " " ++ ColumnOptionDef.render o)))

/-- Collects a list of optional renderings, failing when any element fails. -/
def sequenceOptions : List (Option String) → Option (List String)
  | [] => some []
  | none :: _ => none
  | some s :: rest => (sequenceOptions rest).map (fun ss => s :: ss)

/-- Modelled from the spec: canonical rendering of a statement — one spelling
per accepted synonym family (always `COLUMNS`, always `FROM`, always
`CHANGE COLUMN`). Fails only when a contained data type fails to render. -/
def Statement.render : Statement → Option String
  | .ShowColumns extended full name filter =>
      some ("SHOW "
        ++ (if extended then "EXTENDED " else "")
        ++ (if full then "FULL " else "")
        ++ "COLUMNS FROM " ++ name.render
        ++ (match filter with
            | some f => " " ++ f.render
            | none => ""))
  | .AlterTable name (.ChangeColumn old_name new_name dt opts) =>
      (DataType.fmt dt).map (fun ty =>
        "ALTER TABLE " ++ name.render ++ " CHANGE COLUMN "
          ++ old_name.render ++ " " ++ new_name.render ++ " " ++ ty
          ++ String.join (opts.map (fun o => " " ++ ColumnOption.render o)))
  | .CreateTable name cols =>
      (sequenceOptions (cols.map ColumnDef.render)).map (fun rs =>
        "CREATE TABLE " ++ name.render ++ " (" ++ String.intercalate ", " rs ++ ")")

example : parse .mysql "SHOW FIELDS FROM t" = parse .mysql "SHOW COLUMNS FROM t" := rfl
example : parse .generic "SHOW FIELDS IN t" = parse .generic "SHOW COLUMNS FROM t" := rfl
example : parse .mysql "SHOW COLUMNS FROM t" =
    .ok [.ShowColumns false false ⟨[⟨"t", none⟩]⟩ none] := rfl
example : parse .mysql "SHOW COLUMNS FROM mytable FROM mydb" =
    .error "expected end of statement" := rfl
example : parse .mysql "ALTER TABLE orders CHANGE COLUMN description desc TEXT NOT NULL" =
    .ok [.AlterTable ⟨[⟨"orders", none⟩]⟩
      (.ChangeColumn ⟨"description", none⟩ ⟨"desc", none⟩ .Text [.NotNull])] := rfl
example : parse .mysql "ALTER TABLE orders CHANGE description desc TEXT NOT NULL" =
    parse .mysql "ALTER TABLE orders CHANGE COLUMN description desc TEXT NOT NULL" := rfl
example : parse .mysql "CREATE TABLE foo (bar INT PRIMARY KEY AUTO_INCREMENT)" =
    .ok [.CreateTable ⟨[⟨"foo", none⟩]⟩
      [⟨⟨"bar", none⟩, .Int none, none,
        [⟨none, .Unique true⟩, ⟨none, .DialectSpecific [Token.make_keyword "AUTO_INCREMENT"]⟩]⟩]] := rfl
example : parseExprFromString .mysql "SUBSTRING(description, 0, 1)" =
    parseExprFromString .mysql "SUBSTRING(description FROM 0 FOR 1)" := rfl
example : parseExprFromString .mysql "SUBSTRING(description FROM 0 FOR 1)" =
    .ok (.Substring (.Identifier ⟨"description", none⟩)
      (some (.Value (.Number "0" false))) (some (.Value (.Number "1" false)))) := rfl

/-- C4: under both the MySQL and Generic dialects, `SHOW FIELDS FROM t`,
`SHOW COLUMNS IN t` and `SHOW FIELDS IN t` parse to exactly the statement of
`SHOW COLUMNS FROM t`; that statement is the `ShowColumns` node for table
`t` with no modifiers and no filter, and its canonical rendering spells
`SHOW COLUMNS FROM t`. -/
theorem C4_show_columns_synonym_collapse :
    (∀ d : Dialect,
      parse d "SHOW FIELDS FROM t" = parse d "SHOW COLUMNS FROM t" ∧
      parse d "SHOW COLUMNS IN t" = parse d "SHOW COLUMNS FROM t" ∧
      parse d "SHOW FIELDS IN t" = parse d "SHOW COLUMNS FROM t") ∧
    parse .mysql "SHOW COLUMNS FROM t" =
      .ok [.ShowColumns false false ⟨[⟨"t", none⟩]⟩ none] ∧
    Statement.render (.ShowColumns false false ⟨[⟨"t", none⟩]⟩ none) =
      some "SHOW COLUMNS FROM t" := by
  refine ⟨fun d => ?_, rfl, rfl⟩
  cases d <;> exact ⟨rfl, rfl, rfl⟩

/-- C5: `SHOW COLUMNS FROM mytable FROM mydb` (a trailing second FROM clause)
fails with a parse error under both the MySQL and Generic dialects; the extra
clause is never silently ignored. -/
theorem C5_show_columns_double_from_fails :
    parse .mysql "SHOW COLUMNS FROM mytable FROM mydb" =
      .error "expected end of statement" ∧
    parse .generic "SHOW COLUMNS FROM mytable FROM mydb" =
      .error "expected end of statement" :=
  ⟨rfl, rfl⟩

/-- C6: under the MySQL dialect, `ALTER TABLE orders CHANGE COLUMN
description desc TEXT NOT NULL` and the same statement without the COLUMN
keyword parse to identical ASTs: an `AlterTable` on `orders` whose operation
is `ChangeColumn` with old name `description`, new name `desc`, data type
`Text` and options `[NotNull]`. -/
theorem C6_change_column_keyword_optional :
    parse .mysql "ALTER TABLE orders CHANGE COLUMN description desc TEXT NOT NULL" =
      parse .mysql "ALTER TABLE orders CHANGE description desc TEXT NOT NULL" ∧
    parse .mysql "ALTER TABLE orders CHANGE COLUMN description desc TEXT NOT NULL" =
      .ok [.AlterTable ⟨[⟨"orders", none⟩]⟩
        (.ChangeColumn ⟨"description", none⟩ ⟨"desc", none⟩ .Text [.NotNull])] :=
  ⟨rfl, rfl⟩

/-- C7: the two surface syntaxes of SUBSTRING parse to the same expression
tree — the single normalized `Substring` node over identifier `description`
with FROM part `0` and FOR part `1` — and its canonical rendering emits the
`FROM ... FOR ...` form. -/
theorem C7_substring_two_syntaxes_one_tree :
    parseExprFromString .mysql "SUBSTRING(description, 0, 1)" =
      parseExprFromString .mysql "SUBSTRING(description FROM 0 FOR 1)" ∧
    parseExprFromString .mysql "SUBSTRING(description, 0, 1)" =
      .ok (.Substring (.Identifier ⟨"description", none⟩)
        (some (.Value (.Number "0" false))) (some (.Value (.Number "1" false)))) ∧
    Expr.render (.Substring (.Identifier ⟨"description", none⟩)
        (some (.Value (.Number "0" false))) (some (.Value (.Number "1" false)))) =
      "SUBSTRING(description FROM 0 FOR 1)" :=
  ⟨rfl, rfl, rfl⟩

/-- C8: `CREATE TABLE foo (bar INT PRIMARY KEY AUTO_INCREMENT)` parses under
the MySQL dialect into exactly one column `bar` of type `Int(None)` with the
ordered options `[Unique(is_primary = true), DialectSpecific([keyword
AUTO_INCREMENT])]` — the uncovered trailing syntax is captured verbatim, not
rejected. -/
theorem C8_create_table_auto_increment :
    parse .mysql "CREATE TABLE foo (bar INT PRIMARY KEY AUTO_INCREMENT)" =
      .ok [.CreateTable ⟨[⟨"foo", none⟩]⟩
        [⟨⟨"bar", none⟩, .Int none, none,
          [⟨none, .Unique true⟩,
           ⟨none, .DialectSpecific [Token.make_keyword "AUTO_INCREMENT"]⟩]⟩]] :=
  rfl

/-- Binding an `ok` result just applies the continuation. -/
theorem except_bind_ok {α β γ : Type} (x : α) (f : α → Except γ β) :
    (Except.ok x : Except γ α).bind f = f x := rfl

/-- The tokenizer accepts the empty remainder at any fuel. -/
theorem tokenizeCore_nil (d : Dialect) (fuel : Nat) :
    tokenizeCore d fuel [] = .ok [] := by
  cases fuel <;> rfl

/-- One expression-parser step on a word token other than SUBSTRING yields an
identifier. -/
theorem parseExpr_word (d : Dialect) (fuel : Nat) (v : String) (q : Option Char)
    (ts : List Token) (hne : ¬(Token.Word v q = Token.Word "SUBSTRING" none)) :
    parseExpr d (fuel + 1) (Token.Word v q :: ts) = .ok (.Identifier ⟨v, q⟩, ts) := by
  simp only [parseExpr]
  rw [if_neg hne]

/-- Reading up to a closing quote splits a quote-free body exactly at the
closing quote. -/
theorem readQuoted_append (q : Char) (w rest : List Char) (h : q ∉ w) :
    readQuoted q (w ++ q :: rest) = some (w, rest) := by
  induction w with
  | nil => simp [readQuoted]
  | cons c cs ih =>
      have hc : ¬(c = q) := fun e => h (by simp [e])
      have hm : q ∉ cs := fun m => h (List.mem_cons_of_mem c m)
      simp [readQuoted, hc, ih hm]

/-- One tokenizer step on a leading backquote under the MySQL dialect reads a
quoted identifier. -/
theorem tokenizeCore_backquote (fuel : Nat) (cs : List Char) :
    tokenizeCore .mysql (fuel + 1) (backquote :: cs) =
      match readQuoted backquote cs with
      | some (w, r) =>
          (tokenizeCore .mysql fuel r).map
            (fun ts => Token.Word (String.mk w) (some backquote) :: ts)
      | none => .error "tokenizer: unterminated quoted identifier" := rfl

/-- C9: for every backtick-quoted identifier under the MySQL dialect (any
name free of backticks, reserved words included), tokenizing its rendering
yields a word token recording the backtick as quote style, and parsing the
rendering returns exactly the original identifier expression — quoting is
preserved through the round trip. -/
theorem C9_backtick_quote_roundtrip (v : String) (h : backquote ∉ v.data) :
    tokenize .mysql (Ident.render ⟨v, some backquote⟩) =
      .ok [Token.Word v (some backquote)] ∧
    parseExprFromString .mysql (Ident.render ⟨v, some backquote⟩) =
      .ok (.Identifier ⟨v, some backquote⟩) := by
  have hrender : Ident.render ⟨v, some backquote⟩ =
      String.singleton backquote ++ v ++ String.singleton backquote := rfl
  have hdata : (String.singleton backquote ++ v ++ String.singleton backquote).data =
      backquote :: (v.data ++ [backquote]) := by
    simp [String.data_append, String.singleton]
  have htok : tokenize .mysql (Ident.render ⟨v, some backquote⟩) =
      .ok [Token.Word v (some backquote)] := by
    rw [hrender]
    unfold tokenize
    rw [hdata]
    simp only [List.length_cons, List.length_append, List.length_nil]
    rw [tokenizeCore_backquote]
    rw [readQuoted_append backquote v.data [] h]
    simp only [tokenizeCore_nil, Except.map]
  refine ⟨htok, ?_⟩
  have hne : ¬(Token.Word v (some backquote) = Token.Word "SUBSTRING" none) := by simp
  unfold parseExprFromString
  rw [htok, except_bind_ok,
    parseExpr_word .mysql ([Token.Word v (some backquote)].length) v (some backquote) [] hne,
    except_bind_ok]
  rfl

/-- Witness for C9 at the reserved word PRIMARY. -/
theorem C9_backtick_quote_roundtrip_witness :
    tokenize .mysql (Ident.render ⟨"PRIMARY", some backquote⟩) =
      .ok [Token.Word "PRIMARY" (some backquote)] ∧
    parseExprFromString .mysql (Ident.render ⟨"PRIMARY", some backquote⟩) =
      .ok (.Identifier ⟨"PRIMARY", some backquote⟩) :=
  C9_backtick_quote_roundtrip "PRIMARY" (by decide)
